import Mathlib

/-!
# Verification of the Buckia synchronization engine

A shallow embedding of the synchronization engine of the `buckia` package
(`src/buckia/sync/base.py`, with the provider backends `bunny.py` and `b2.py`
and the client wrapper `client.py`), together with theorems settling the
frozen claims about it.

Conventions of the embedding:
* Python `dict`s that map paths to values become association lists
  (`List (String × _)`) in insertion order; `dict` key uniqueness becomes a
  `Nodup` hypothesis on the mapped keys where a theorem needs it.
* Filesystem and network effects are oracles: the result of
  `os.path.isdir` is a `Bool` parameter, the result of the local scan
  (`get_local_files` / `get_local_files_in_paths`) is a `FileDigestMap`
  parameter, and the provider backend is a record of functions whose results
  model either a returned value or a raised exception (`PyOutcome`).
* POSIX path-string operations (`os.path.join`, `str.startswith`,
  `str.replace`, `str(pathlib.Path(...))`) are modelled as executable
  functions on `String` below.
-/

namespace Buckia

/-- Python `s.startswith(pre)`: character-list prefix test. -/
def strStartsWith (s pre : String) : Bool :=
  pre.data.isPrefixOf s.data

/-- Python `s.endswith(suf)`: character-list suffix test. -/
def strEndsWith (s suf : String) : Bool :=
  suf.data.isSuffixOf s.data

/-- Python `s.replace("\\", "/")`: every backslash character becomes a slash. -/
def backslashToSlash (s : String) : String :=
  ⟨s.data.map (fun c => if c == '\\' then '/' else c)⟩

/-- One step of slash collapsing: a `/` immediately followed by another `/`
is dropped. -/
def collapseSlashes : List Char → List Char
  | [] => []
  | c :: rest =>
    match rest with
    | [] => [c]
    | d :: _ => if c == '/' && d == '/' then collapseSlashes rest
                else c :: collapseSlashes rest

/-- Drop a single trailing slash, except from the root path `"/"`. -/
def dropTrailingSlash (l : List Char) : List Char :=
  match l with
  | [] => []
  | ['/'] => ['/']
  | _ => if l.getLast? == some '/' then l.dropLast else l

/-- `str(pathlib.Path(p))` on POSIX for the slash-normalization cases:
repeated slashes collapse, a trailing slash is dropped (except for `"/"`),
and the empty string becomes `"."`.  Segments `"."`/`".."` are not
simplified by this model; no theorem below instantiates it on them. -/
def pathStr (p : String) : String :=
  let l := dropTrailingSlash (collapseSlashes p.data)
  if l.isEmpty then "." else ⟨l⟩

/-- `os.path.join(a, b)` on POSIX (two arguments): an absolute `b` wins,
otherwise the parts are joined with a single `/` separator. -/
def osPathJoin (a b : String) : String :=
  if strStartsWith b "/" then b
  else if a == "" then b
  else if strEndsWith a "/" then a ++ b
  else a ++ "/" ++ b

/-! ## Data model (`src/buckia/sync/base.py`) -/

/-- The metadata record a provider's `list_remote_files` yields for one remote
path.  `BaseSync.sync` only ever reads `metadata.get("Checksum")`, whose
result is `None` (here `none`) when the key is absent. -/
structure RemoteMeta where
  checksum : Option String
deriving Repr, DecidableEq

/-- Local scan result: relative path (forward slashes) to content digest,
in insertion order.  `calculate_checksum` returns `""` on any I/O error, so
the empty string is a possible digest value. -/
abbrev FileDigestMap := List (String × String)

/-- Remote listing: remote path to metadata, in insertion order. -/
abbrev RemoteFileMap := List (String × RemoteMeta)

/-- `SyncResult` dataclass of `base.py` with its field defaults
(`success=True`, counters `0`, `errors=[]`, plus the legacy `cached`). -/
structure SyncResult where
  success : Bool := true
  uploaded : Nat := 0
  downloaded : Nat := 0
  deleted : Nat := 0
  failed : Nat := 0
  unchanged : Nat := 0
  errors : List String := []
  protected_skipped : Nat := 0
  cached : Nat := 0
deriving Repr, DecidableEq

/-- Python truthiness of an optional list (`if sync_paths:`): `None` and the
empty list are falsy. -/
def listTruthy (o : Option (List String)) : Bool :=
  match o with
  | none => false
  | some l => !l.isEmpty

/-- `any(remote_path.startswith(str(p).replace("\\", "/")) for p in sync_paths)`
from the deletion- and download-scoping checks of `BaseSync.sync`. -/
def scopeAny (sync_paths : Option (List String)) (remote_path : String) : Bool :=
  (sync_paths.getD []).any (fun p => strStartsWith remote_path (backslashToSlash p))

/-- `protected_patterns = [str(Path(p)) for p in sync_paths] if sync_paths else []`
(lines 285-287 of `base.py`). -/
def protectedPatterns (sync_paths : Option (List String)) : List String :=
  if listTruthy sync_paths then (sync_paths.getD []).map pathStr else []

/-! ## Diff engine: the three planning loops of `BaseSync.sync` -/

/-- Upload classification loop (lines 303-315): for each local
`(relative_path, local_checksum)` in order, a path absent from
`remote_files`, or present with `remote_files[p].get("Checksum") !=
local_checksum` (where `None != s` is true), goes to `to_upload`; otherwise
`result.unchanged` is incremented.  Returns `(to_upload, unchanged)`. -/
def uploadPass (remote_files : RemoteFileMap) : FileDigestMap → List String × Nat
  | [] => ([], 0)
  | (relative_path, local_checksum) :: rest =>
    let acc := uploadPass remote_files rest
    match List.lookup relative_path remote_files with
    | none => (relative_path :: acc.1, acc.2)
    | some meta =>
      if meta.checksum != some local_checksum then (relative_path :: acc.1, acc.2)
      else (acc.1, acc.2 + 1)

/-- Orphan-deletion loop body (lines 320-331), iterating the remote paths:
a remote path not in `local_files` is appended to `to_delete`, but when
`sync_paths` is truthy only if it starts with one of the (slash-normalized)
sync paths. -/
def deletePass (local_files : FileDigestMap) (sync_paths : Option (List String)) :
    List String → List String
  | [] => []
  | remote_path :: rest =>
    let tail := deletePass local_files sync_paths rest
    if (List.lookup remote_path local_files).isNone then
      if listTruthy sync_paths then
        if scopeAny sync_paths remote_path then remote_path :: tail else tail
      else remote_path :: tail
    else tail

/-- Download classification loop (lines 333-352), iterating the remote paths:
first the write-protection check on `target_path = os.path.join(local_path,
remote_path)` (increments `protected_skipped` and skips), then the
`sync_paths` scope check (skips), then paths absent locally go to
`to_download`.  Returns `(to_download, protected_skipped)`. -/
def downloadPass (local_path : String) (pats : List String)
    (sync_paths : Option (List String)) (local_files : FileDigestMap) :
    List String → List String × Nat
  | [] => ([], 0)
  | remote_path :: rest =>
    let acc := downloadPass local_path pats sync_paths local_files rest
    let target_path := osPathJoin local_path remote_path
    if !pats.isEmpty && pats.any (fun p => strStartsWith target_path p) then
      (acc.1, acc.2 + 1)
    else if listTruthy sync_paths && !scopeAny sync_paths remote_path then
      acc
    else if (List.lookup remote_path local_files).isNone then
      (remote_path :: acc.1, acc.2)
    else acc

/-- The ephemeral plan a single `BaseSync.sync` run computes before acting. -/
structure SyncPlan where
  to_upload : List String
  to_delete : List String
  to_download : List String
  unchanged : Nat
  protected_skipped : Nat
deriving Repr, DecidableEq

/-- The complete planning phase of `BaseSync.sync` (lines 284-352): the three
loops above, with `to_delete` computed only under `if delete_orphaned:`. -/
def computePlan (local_path : String) (local_files : FileDigestMap)
    (remote_files : RemoteFileMap) (sync_paths : Option (List String))
    (delete_orphaned : Bool) : SyncPlan :=
  let up := uploadPass remote_files local_files
  let dels :=
    if delete_orphaned then deletePass local_files sync_paths (remote_files.map Prod.fst)
    else []
  let dl := downloadPass local_path (protectedPatterns sync_paths) sync_paths local_files
    (remote_files.map Prod.fst)
  { to_upload := up.1, to_delete := dels, to_download := dl.1,
    unchanged := up.2, protected_skipped := dl.2 }

/-! ## Execution engine: the three live action loops of `BaseSync.sync` -/

/-- Result of calling one Python backend primitive: either a returned `Bool`
or a raised exception carrying `str(e)`. -/
inductive PyOutcome where
  | ok : Bool → PyOutcome
  | exn : String → PyOutcome
deriving Repr, DecidableEq

/-- The provider backend as `BaseSync.sync` consumes it: the remote listing
it returns and the per-path outcomes of its three mutating primitives. -/
structure Backend where
  list_remote_files : RemoteFileMap
  upload_file : String → String → PyOutcome
  download_file : String → String → PyOutcome
  delete_file : String → PyOutcome

/-- A raised Python exception, with its class and message. -/
structure PyError where
  cls : String
  msg : String
deriving Repr, DecidableEq

deriving instance DecidableEq for Except

/-- Upload loop (lines 372-391): for each `relative_path` of `to_upload`,
`upload_file(os.path.join(local_path, relative_path), relative_path)` either
returns `True` (count `uploaded`), returns `False` (count `failed`, append
`"Failed to upload: {path}"`), or raises (count `failed`, append
`"Error uploading {path}: {str(e)}"`). -/
def runUploads (b : Backend) (local_path : String) :
    List String → SyncResult → SyncResult
  | [], r => r
  | relative_path :: rest, r =>
    let r' :=
      match b.upload_file (osPathJoin local_path relative_path) relative_path with
      | .ok true => { r with uploaded := r.uploaded + 1 }
      | .ok false =>
        { r with failed := r.failed + 1,
                 errors := r.errors ++ ["Failed to upload: " ++ relative_path] }
      | .exn e =>
        { r with failed := r.failed + 1,
                 errors := r.errors ++ ["Error uploading " ++ relative_path ++ ": " ++ e] }
    runUploads b local_path rest r'

/-- Download loop (lines 393-415): for each `remote_path` of `to_download`,
`download_file(remote_path, os.path.join(local_path, remote_path))` with the
same triple of outcomes (`"Failed to download: {path}"` /
`"Error downloading {path}: {str(e)}"`).  The `os.makedirs(...,
exist_ok=True)` call touches only the local filesystem and no modelled
state. -/
def runDownloads (b : Backend) (local_path : String) :
    List String → SyncResult → SyncResult
  | [], r => r
  | remote_path :: rest, r =>
    let r' :=
      match b.download_file remote_path (osPathJoin local_path remote_path) with
      | .ok true => { r with downloaded := r.downloaded + 1 }
      | .ok false =>
        { r with failed := r.failed + 1,
                 errors := r.errors ++ ["Failed to download: " ++ remote_path] }
      | .exn e =>
        { r with failed := r.failed + 1,
                 errors := r.errors ++ ["Error downloading " ++ remote_path ++ ": " ++ e] }
    runDownloads b local_path rest r'

/-- Deletion loop (lines 417-434): for each `remote_path` of `to_delete`,
`delete_file(remote_path)` with the same triple of outcomes
(`"Failed to delete: {path}"` / `"Error deleting {path}: {str(e)}"`). -/
def runDeletes (b : Backend) : List String → SyncResult → SyncResult
  | [], r => r
  | remote_path :: rest, r =>
    let r' :=
      match b.delete_file remote_path with
      | .ok true => { r with deleted := r.deleted + 1 }
      | .ok false =>
        { r with failed := r.failed + 1,
                 errors := r.errors ++ ["Failed to delete: " ++ remote_path] }
      | .exn e =>
        { r with failed := r.failed + 1,
                 errors := r.errors ++ ["Error deleting " ++ remote_path ++ ": " ++ e] }
    runDeletes b rest r'

/-- `BaseSync.sync` (lines 250-440).  Oracles: `is_dir` is
`os.path.isdir(local_path)`; `local_files` is the scan result
(`get_local_files` / `get_local_files_in_paths`).  `max_workers`,
`include_pattern` and `exclude_pattern` are accepted exactly as in the
Python signature; the body never reads them (the Python body does not
either; `progress_callback` only emits notifications and is omitted).
A non-directory `local_path` raises `NotADirectoryError`; otherwise the plan
is computed, dry runs return counters copied from the plan, and live runs
execute uploads, then downloads, then deletions, finally recomputing
`success = (failed == 0)`. -/
def syncModel (b : Backend) (is_dir : Bool) (local_path : String)
    (local_files : FileDigestMap) (max_workers : Nat) (delete_orphaned : Bool)
    (dry_run : Bool) (sync_paths : Option (List String))
    (include_pattern exclude_pattern : Option String) : Except PyError SyncResult :=
  if !is_dir then
    .error ⟨"NotADirectoryError", "Local path does not exist: " ++ local_path⟩
  else
    let remote_files := b.list_remote_files
    let plan := computePlan local_path local_files remote_files sync_paths delete_orphaned
    let r0 : SyncResult :=
      { unchanged := plan.unchanged, protected_skipped := plan.protected_skipped }
    if dry_run then
      .ok { r0 with
              uploaded := plan.to_upload.length,
              downloaded := plan.to_download.length,
              deleted := if delete_orphaned then plan.to_delete.length else r0.deleted }
    else
      let r1 := runUploads b local_path plan.to_upload r0
      let r2 := runDownloads b local_path plan.to_download r1
      let r3 := runDeletes b plan.to_delete r2
      .ok { r3 with success := r3.failed == 0 }

/-! ## Provider backends: `delete_file` (`bunny.py`, `b2.py`) -/

/-- Result of `self.session.delete(url)` in `BunnySync.delete_file`: a
response with a status code, or a raised exception. -/
inductive HttpResp where
  | status : Nat → HttpResp
  | exn : String → HttpResp
deriving Repr, DecidableEq

/-- Direct-API branch of `BunnySync.delete_file` (lines 481-498 of
`bunny.py`): true exactly when the DELETE response status is 200 or 204;
any other status, and any raised exception, yields false. -/
def bunnyDirectDelete : HttpResp → Bool
  | .status code => code == 200 || code == 204
  | .exn _ => false

/-- Environment of one `BunnySync.delete_file` call: whether a
`bunny_client` is configured and, if so, whether its `DeleteFile` raises
(`some (some msg)`) or returns (`some none`); plus the direct-API response
used when there is no client or the client raised. -/
structure BunnyDeleteEnv where
  bunny_client : Option (Option String)
  http : HttpResp

/-- `BunnySync.delete_file` (lines 469-498 of `bunny.py`): a successful
`bunny_client.DeleteFile` returns true; a raised one falls back to the
direct API, as does the absence of a client. -/
def bunnyDeleteFile (env : BunnyDeleteEnv) : Bool :=
  match env.bunny_client with
  | some none => true
  | some (some _) => bunnyDirectDelete env.http
  | none => bunnyDirectDelete env.http

/-- Contiguous-sublist search over character lists. -/
def containsSubList : List Char → List Char → Bool
  | l, sub =>
    match l with
    | [] => sub.isEmpty
    | _ :: rest => sub.isPrefixOf l || containsSubList rest sub

/-- Python `sub in s` for strings: contiguous-sublist test. -/
def strContainsSub (s sub : String) : Bool :=
  containsSubList s.data sub.data

/-- Python `s.lower()` (ASCII-adequate model via `Char.toLower`). -/
def strToLower (s : String) : String :=
  ⟨s.data.map Char.toLower⟩

/-- An exception reaching the outer handlers of `B2Sync.delete_file`: a
`B2Error` with `str(e)` and `getattr(e, "status", 0)`, or any other
exception. -/
inductive B2Err where
  | b2 (msg : String) (status : Nat)
  | other (msg : String)
deriving Repr, DecidableEq

/-- The `except B2Error` / `except Exception` handlers of
`B2Sync.delete_file` (lines 623-646 of `b2.py`): a `B2Error` whose lowered
message contains `"not_found"` or whose status is 404 yields true
("Consider this a success since the file doesn't exist"); every other
exception yields false. -/
def b2ExcResult : B2Err → Bool
  | .b2 msg status => strContainsSub (strToLower msg) "not_found" || status == 404
  | .other _ => false

/-- Outcome of `self.bucket.get_file_info_by_name(remote_path)` inside
`B2Sync.delete_file`: file info with a version id, a `FileNotPresent`
exception (caught locally), or another exception reaching the outer
handlers. -/
inductive B2GetInfo where
  | info (version : String)
  | fileNotPresent
  | raises (e : B2Err)
deriving Repr, DecidableEq

/-- Environment of one `B2Sync.delete_file` call. `delete_version = some e`
means `bucket.delete_file_version` raised `e`. -/
structure B2DeleteEnv where
  authorized : Bool
  connect_ok : Bool
  get_info : B2GetInfo
  delete_version : Option B2Err

/-- `B2Sync.delete_file` (lines 581-646 of `b2.py`): connect lazily when not
authorized (failure returns false); `FileNotPresent` from the lookup returns
true ("File doesn't exist, so deletion succeeded"); a found version is
deleted, and exceptions from either step go to the handlers modelled by
`b2ExcResult`. -/
def b2DeleteFile (env : B2DeleteEnv) : Bool :=
  if !env.authorized && !env.connect_ok then false
  else
    match env.get_info with
    | .fileNotPresent => true
    | .raises e => b2ExcResult e
    | .info _ =>
      match env.delete_version with
      | none => true
      | some e => b2ExcResult e

/-! ## Characterizations of the planning passes -/

/-- The upload condition of lines 306-313: absent from the remote map, or
remote `Checksum` metadata unequal (as Python `!=`, where `None` differs
from every string) to the local digest. -/
def uploadNeeded (remote_files : RemoteFileMap) (p c : String) : Bool :=
  match List.lookup p remote_files with
  | none => true
  | some meta => meta.checksum != some c

/-- The write-protection condition of line 338: some protected pattern is a
string prefix of the joined target path. -/
def isProtectedTarget (local_path : String) (pats : List String)
    (remote_path : String) : Bool :=
  !pats.isEmpty && pats.any (fun p => strStartsWith (osPathJoin local_path remote_path) p)

/-- The scope-exclusion condition of lines 344-347: `sync_paths` is truthy
and the remote path starts with none of them. -/
def isScopeExcluded (sync_paths : Option (List String)) (remote_path : String) : Bool :=
  listTruthy sync_paths && !scopeAny sync_paths remote_path

/-- Deletion eligibility of lines 320-331: absent locally, and within the
sync scope whenever `sync_paths` is truthy. -/
def deleteEligible (local_files : FileDigestMap) (sync_paths : Option (List String))
    (remote_path : String) : Bool :=
  (List.lookup remote_path local_files).isNone
    && (!listTruthy sync_paths || scopeAny sync_paths remote_path)

/-- A trivially succeeding backend over an empty remote. -/
def emptyRemoteBackend : Backend where
  list_remote_files := []
  upload_file := fun _ _ => .ok true
  download_file := fun _ _ => .ok true
  delete_file := fun _ => .ok true

/-- The same backend, listing one remote-only file. -/
def oneFileRemoteBackend : Backend :=
  { emptyRemoteBackend with list_remote_files := [("r.txt", ⟨some "x"⟩)] }

/-- A backend whose `upload_file` raises for exactly `b.txt` and succeeds
for every other path, over an empty remote. -/
def failingUploadBackend : Backend where
  list_remote_files := []
  upload_file := fun _ rp => if rp == "b.txt" then .exn "boom" else .ok true
  download_file := fun _ _ => .ok true
  delete_file := fun _ => .ok true

/-! ## Characterizations of the execution loops -/

/-- One upload succeeded: the primitive returned `True`. -/
def uploadOk (b : Backend) (lp rp : String) : Bool :=
  match b.upload_file (osPathJoin lp rp) rp with
  | .ok true => true
  | _ => false

/-- The error string one upload contributes, if any: the exact formats of
lines 387 and 391 of `base.py`. -/
def uploadErrMsg (b : Backend) (lp rp : String) : Option String :=
  match b.upload_file (osPathJoin lp rp) rp with
  | .ok true => none
  | .ok false => some ("Failed to upload: " ++ rp)
  | .exn e => some ("Error uploading " ++ rp ++ ": " ++ e)

/-- One download succeeded: the primitive returned `True`. -/
def downloadOk (b : Backend) (lp rp : String) : Bool :=
  match b.download_file rp (osPathJoin lp rp) with
  | .ok true => true
  | _ => false

/-- The error string one download contributes, if any (lines 411 and 415). -/
def downloadErrMsg (b : Backend) (lp rp : String) : Option String :=
  match b.download_file rp (osPathJoin lp rp) with
  | .ok true => none
  | .ok false => some ("Failed to download: " ++ rp)
  | .exn e => some ("Error downloading " ++ rp ++ ": " ++ e)

/-- One deletion succeeded: the primitive returned `True`. -/
def deleteOk (b : Backend) (rp : String) : Bool :=
  match b.delete_file rp with
  | .ok true => true
  | _ => false

/-- The error string one deletion contributes, if any (lines 430 and 434). -/
def deleteErrMsg (b : Backend) (rp : String) : Option String :=
  match b.delete_file rp with
  | .ok true => none
  | .ok false => some ("Failed to delete: " ++ rp)
  | .exn e => some ("Error deleting " ++ rp ++ ": " ++ e)

lemma uploadPass_eq (rf : RemoteFileMap) (lf : FileDigestMap) :
    uploadPass rf lf
      = ((lf.filter fun pc => uploadNeeded rf pc.1 pc.2).map Prod.fst,
         (lf.filter fun pc => !uploadNeeded rf pc.1 pc.2).length) := by
  induction lf with
  | nil => rfl
  | cons pc rest ih =>
    obtain ⟨p, c⟩ := pc
    simp only [uploadPass, ih, uploadNeeded, List.filter_cons]
    cases h : List.lookup p rf with
    | none => simp
    | some meta =>
      by_cases hc : meta.checksum != some c <;> simp [hc]

lemma deletePass_eq (lf : FileDigestMap) (sp : Option (List String))
    (keys : List String) :
    deletePass lf sp keys = keys.filter (deleteEligible lf sp) := by
  induction keys with
  | nil => rfl
  | cons k rest ih =>
    simp only [deletePass, ih, deleteEligible, List.filter_cons]
    by_cases h1 : (List.lookup k lf).isNone
    · by_cases h2 : listTruthy sp
      · by_cases h3 : scopeAny sp k <;> simp [h1, h2, h3]
      · simp [h1, h2]
    · simp [h1]

lemma downloadPass_eq (lp : String) (pats : List String)
    (sp : Option (List String)) (lf : FileDigestMap) (keys : List String) :
    downloadPass lp pats sp lf keys
      = (keys.filter fun rp =>
           !isProtectedTarget lp pats rp && !isScopeExcluded sp rp
             && (List.lookup rp lf).isNone,
         (keys.filter (isProtectedTarget lp pats)).length) := by
  induction keys with
  | nil => rfl
  | cons k rest ih =>
    simp only [downloadPass, ih, isProtectedTarget, isScopeExcluded, List.filter_cons]
    by_cases h1 : (!pats.isEmpty && pats.any fun p => strStartsWith (osPathJoin lp k) p)
    · simp [h1]
    · by_cases h2 : (listTruthy sp && !scopeAny sp k)
      · simp [h1, h2]
      · by_cases h3 : (List.lookup k lf).isNone <;> simp [h1, h2, h3]

/-- A key of an association list has a `lookup` result. -/
lemma lookup_isSome_of_mem_keys {α : Type} {l : List (String × α)} {p : String}
    (h : p ∈ l.map Prod.fst) : (List.lookup p l).isSome := by
  induction l with
  | nil => simp at h
  | cons qv t ih =>
    rw [List.map_cons, List.mem_cons] at h
    by_cases hq : p == qv.1
    · simp [List.lookup, hq]
    · rcases h with h | h
      · exact absurd (by simp [h]) hq
      · simpa [List.lookup, hq] using ih h

/-- A `lookup` result names a key of the association list. -/
lemma mem_keys_of_lookup_isSome {α : Type} {l : List (String × α)} {p : String}
    (h : (List.lookup p l).isSome) : p ∈ l.map Prod.fst := by
  induction l with
  | nil => simp [List.lookup] at h
  | cons qv t ih =>
    by_cases hq : p == qv.1
    · simp [List.map_cons, List.mem_cons]
      exact Or.inl (by simpa using hq)
    · rw [List.lookup_cons] at h
      simp only [hq] at h
      exact List.mem_cons.mpr (Or.inr (ih h))

/-- In an association list with `Nodup` keys, membership of an entry
determines the `lookup` result. -/
lemma lookup_eq_of_mem_nodup {l : List (String × String)}
    (hnd : (l.map Prod.fst).Nodup) {p c : String} (h : (p, c) ∈ l) :
    List.lookup p l = some c := by
  induction l with
  | nil => simp at h
  | cons qv t ih =>
    obtain ⟨q, v⟩ := qv
    rw [List.map_cons, List.nodup_cons] at hnd
    rcases List.mem_cons.mp h with h | h
    · obtain ⟨hp, hc⟩ := Prod.mk.injEq .. ▸ h
      subst hp; subst hc
      simp [List.lookup]
    · have hne : (p == q) = false := by
        rw [beq_eq_false_iff_ne]
        intro hq
        exact hnd.1 (by
          have : p ∈ t.map Prod.fst := List.mem_map.mpr ⟨(p, c), h, rfl⟩
          simpa [hq] using this)
      simp only [List.lookup, hne]
      exact ih hnd.2 h

lemma runUploads_eq (b : Backend) (lp : String) (items : List String)
    (r : SyncResult) :
    runUploads b lp items r
      = { r with
          uploaded := r.uploaded + items.countP (uploadOk b lp),
          failed := r.failed + items.countP (fun rp => !uploadOk b lp rp),
          errors := r.errors ++ items.filterMap (uploadErrMsg b lp) } := by
  induction items generalizing r with
  | nil => cases r; simp [runUploads]
  | cons rp rest ih =>
    simp only [runUploads]
    cases hout : b.upload_file (osPathJoin lp rp) rp with
    | ok bv =>
      cases bv <;>
        · rw [ih]
          cases r
          simp [uploadOk, uploadErrMsg, hout, List.countP_cons, List.filterMap_cons,
                Nat.add_assoc, Nat.add_left_comm, Nat.add_comm, List.append_assoc]
    | exn e =>
      rw [ih]
      cases r
      simp [uploadOk, uploadErrMsg, hout, List.countP_cons, List.filterMap_cons,
            Nat.add_assoc, Nat.add_left_comm, Nat.add_comm, List.append_assoc]

lemma runDownloads_eq (b : Backend) (lp : String) (items : List String)
    (r : SyncResult) :
    runDownloads b lp items r
      = { r with
          downloaded := r.downloaded + items.countP (downloadOk b lp),
          failed := r.failed + items.countP (fun rp => !downloadOk b lp rp),
          errors := r.errors ++ items.filterMap (downloadErrMsg b lp) } := by
  induction items generalizing r with
  | nil => cases r; simp [runDownloads]
  | cons rp rest ih =>
    simp only [runDownloads]
    cases hout : b.download_file rp (osPathJoin lp rp) with
    | ok bv =>
      cases bv <;>
        · rw [ih]
          cases r
          simp [downloadOk, downloadErrMsg, hout, List.countP_cons, List.filterMap_cons,
                Nat.add_assoc, Nat.add_left_comm, Nat.add_comm, List.append_assoc]
    | exn e =>
      rw [ih]
      cases r
      simp [downloadOk, downloadErrMsg, hout, List.countP_cons, List.filterMap_cons,
            Nat.add_assoc, Nat.add_left_comm, Nat.add_comm, List.append_assoc]

lemma runDeletes_eq (b : Backend) (items : List String) (r : SyncResult) :
    runDeletes b items r
      = { r with
          deleted := r.deleted + items.countP (deleteOk b),
          failed := r.failed + items.countP (fun rp => !deleteOk b rp),
          errors := r.errors ++ items.filterMap (deleteErrMsg b) } := by
  induction items generalizing r with
  | nil => cases r; simp [runDeletes]
  | cons rp rest ih =>
    simp only [runDeletes]
    cases hout : b.delete_file rp with
    | ok bv =>
      cases bv <;>
        · rw [ih]
          cases r
          simp [deleteOk, deleteErrMsg, hout, List.countP_cons, List.filterMap_cons,
                Nat.add_assoc, Nat.add_left_comm, Nat.add_comm, List.append_assoc]
    | exn e =>
      rw [ih]
      cases r
      simp [deleteOk, deleteErrMsg, hout, List.countP_cons, List.filterMap_cons,
            Nat.add_assoc, Nat.add_left_comm, Nat.add_comm, List.append_assoc]

/-- Splitting a list by a predicate preserves its length. -/
lemma filter_length_split {α : Type} (p : α → Bool) (l : List α) :
    (l.filter p).length + (l.filter fun a => !p a).length = l.length := by
  induction l with
  | nil => rfl
  | cons a t ih =>
    by_cases h : p a <;> simp [List.filter_cons, h, ← ih] <;> omega

/-- An element of `to_upload` is a key of the local map. -/
lemma mem_keys_of_mem_uploadPass {rf : RemoteFileMap} {lf : FileDigestMap}
    {p : String} (h : p ∈ (uploadPass rf lf).1) : p ∈ lf.map Prod.fst := by
  rw [uploadPass_eq] at h
  obtain ⟨pc, hpc, rfl⟩ := List.mem_map.mp h
  exact List.mem_map.mpr ⟨pc, (List.mem_filter.mp hpc).1, rfl⟩

/-! ## Claims -/

/-- C1 counterexample: with local digest `""` (the I/O-error sentinel of
`calculate_checksum`) and a remote record whose `Checksum` is the empty
string, the diff classifies the path as unchanged, not as upload, because
`"" != ""` is false at line 310 of `base.py`. -/
theorem upload_empty_checksum_counterexample :
    (computePlan "/data" [("a.txt", "")] [("a.txt", ⟨some ""⟩)] none false).to_upload
        = []
      ∧ (computePlan "/data" [("a.txt", "")] [("a.txt", ⟨some ""⟩)] none false).unchanged
        = 1 := by
  decide

/-- C1 (amended): a local path whose remote record has an absent (`None`)
checksum is always classified as upload; one whose remote record has the
empty-string checksum is classified as upload exactly when the local digest
is not itself the empty string — when both are empty, plain string equality
classifies the path as unchanged. -/
theorem upload_empty_checksum_classification (lp : String) (lf : FileDigestMap)
    (rf : RemoteFileMap) (sp : Option (List String)) (del : Bool)
    (p c : String) (meta : RemoteMeta)
    (hmem : (p, c) ∈ lf) (hlook : List.lookup p rf = some meta)
    (hempty : meta.checksum = none ∨ meta.checksum = some "") :
    (¬(meta.checksum = some "" ∧ c = "") →
        p ∈ (computePlan lp lf rf sp del).to_upload)
    ∧ ((lf.map Prod.fst).Nodup → meta.checksum = some "" → c = "" →
        p ∉ (computePlan lp lf rf sp del).to_upload) := by
  constructor
  · intro hne
    have hneed : uploadNeeded rf p c = true := by
      unfold uploadNeeded
      rw [hlook]
      rcases hempty with h | h
      · simp [h]
      · have hc : c ≠ "" := by
          intro hc
          exact hne ⟨h, hc⟩
        simp [h, hc.symm]
    simp only [computePlan, uploadPass_eq]
    exact List.mem_map.mpr ⟨(p, c), List.mem_filter.mpr ⟨hmem, hneed⟩, rfl⟩
  · intro hnd hck hc hup
    simp only [computePlan, uploadPass_eq] at hup
    obtain ⟨⟨q, d⟩, hqd, hq⟩ := List.mem_map.mp hup
    obtain ⟨hqmem, hpred⟩ := List.mem_filter.mp hqd
    cases hq
    have hd : d = c := by
      have h1 := lookup_eq_of_mem_nodup hnd hqmem
      have h2 := lookup_eq_of_mem_nodup hnd hmem
      rw [h1] at h2
      exact (Option.some.injEq ..).mp h2
    subst hd
    subst hc
    unfold uploadNeeded at hpred
    rw [hlook] at hpred
    simp [hck] at hpred

/-- C2: the plan is a partition — the local paths split between `to_upload`
and the `unchanged` counter (by count, and per entry by the upload
condition); each remote-only path meets exactly one of: downloaded,
counted into `protected_skipped` by the write-protection test, or ignored
by the scope test; and no path is both uploaded and deleted in one run. -/
theorem plan_partition (lp : String) (lf : FileDigestMap) (rf : RemoteFileMap)
    (sp : Option (List String)) (del : Bool)
    (hl : (lf.map Prod.fst).Nodup) :
    ((computePlan lp lf rf sp del).to_upload.length
        + (computePlan lp lf rf sp del).unchanged = lf.length)
    ∧ (∀ pc ∈ lf, pc.1 ∈ (computePlan lp lf rf sp del).to_upload
        ↔ uploadNeeded rf pc.1 pc.2 = true)
    ∧ (∀ p ∈ rf.map Prod.fst, (List.lookup p lf).isNone = true →
        (p ∈ (computePlan lp lf rf sp del).to_download
            ∧ isProtectedTarget lp (protectedPatterns sp) p = false
            ∧ isScopeExcluded sp p = false)
        ∨ (p ∉ (computePlan lp lf rf sp del).to_download
            ∧ isProtectedTarget lp (protectedPatterns sp) p = true)
        ∨ (p ∉ (computePlan lp lf rf sp del).to_download
            ∧ isProtectedTarget lp (protectedPatterns sp) p = false
            ∧ isScopeExcluded sp p = true))
    ∧ ((computePlan lp lf rf sp del).protected_skipped
        = ((rf.map Prod.fst).filter (isProtectedTarget lp (protectedPatterns sp))).length)
    ∧ (∀ p, p ∈ (computePlan lp lf rf sp del).to_upload →
        p ∉ (computePlan lp lf rf sp del).to_delete) := by
  refine ⟨?_, ?_, ?_, ?_, ?_⟩
  · simp only [computePlan, uploadPass_eq, List.length_map]
    exact filter_length_split _ lf
  · rintro ⟨p, c⟩ hmem
    constructor
    · intro hup
      simp only [computePlan, uploadPass_eq] at hup
      obtain ⟨⟨q, d⟩, hqd, hq⟩ := List.mem_map.mp hup
      obtain ⟨hqmem, hpred⟩ := List.mem_filter.mp hqd
      cases hq
      have hd : d = c := by
        have h1 := lookup_eq_of_mem_nodup hl hqmem
        have h2 := lookup_eq_of_mem_nodup hl hmem
        rw [h1] at h2
        exact (Option.some.injEq ..).mp h2
      subst hd
      exact hpred
    · intro hneed
      simp only [computePlan, uploadPass_eq]
      exact List.mem_map.mpr ⟨(p, c), List.mem_filter.mpr ⟨hmem, hneed⟩, rfl⟩
  · intro p hpkeys hnone
    have hmemdl : p ∈ (computePlan lp lf rf sp del).to_download
        ↔ (isProtectedTarget lp (protectedPatterns sp) p = false
            ∧ isScopeExcluded sp p = false) := by
      simp only [computePlan, downloadPass_eq, List.mem_filter]
      constructor
      · intro ⟨_, hpred⟩
        simp only [Bool.and_eq_true, Bool.not_eq_true'] at hpred
        exact ⟨hpred.1.1, hpred.1.2⟩
      · intro ⟨h1, h2⟩
        refine ⟨hpkeys, ?_⟩
        simp [h1, h2, hnone]
    by_cases h1 : isProtectedTarget lp (protectedPatterns sp) p
    · exact Or.inr (Or.inl ⟨fun h => by simp [hmemdl.mp h] at h1, h1⟩)
    · by_cases h2 : isScopeExcluded sp p
      · refine Or.inr (Or.inr ⟨fun h => by simp [(hmemdl.mp h).2] at h2, ?_, h2⟩)
        simpa using h1
      · exact Or.inl ⟨hmemdl.mpr ⟨by simpa using h1, by simpa using h2⟩,
          by simpa using h1, by simpa using h2⟩
  · simp only [computePlan, downloadPass_eq]
  · intro p hup hdel
    have hkeys : p ∈ lf.map Prod.fst := by
      simp only [computePlan] at hup
      exact mem_keys_of_mem_uploadPass hup
    have hsome := lookup_isSome_of_mem_keys hkeys
    simp only [computePlan] at hdel
    by_cases hdo : del
    · rw [if_pos hdo, deletePass_eq] at hdel
      have := (List.mem_filter.mp hdel).2
      unfold deleteEligible at this
      rw [Bool.and_eq_true, Option.isNone_iff_eq_none] at this
      rw [this.1] at hsome
      simp at hsome
    · rw [if_neg hdo] at hdel
      simp at hdel

/-- C3 counterexample: `protected_skipped` also counts protected remote
paths that do exist locally.  With `local_path = "/data"` and
`sync_paths = ["/data"]`, the remote path `a.txt` (also present locally,
hence not remote-only) has target `/data/a.txt`, which starts with the
protected pattern `/data`; the plan counts it (`protected_skipped = 1`)
although the number of protected remote-only paths is `0`. -/
theorem protected_skip_count_counterexample :
    (computePlan "/data" [("a.txt", "d1")] [("a.txt", ⟨some "d1"⟩)]
        (some ["/data"]) false).protected_skipped = 1
    ∧ ((([("a.txt", RemoteMeta.mk (some "d1"))] : RemoteFileMap).map Prod.fst).filter
          (fun p => (List.lookup p ([("a.txt", "d1")] : FileDigestMap)).isNone
            && isProtectedTarget "/data" (protectedPatterns (some ["/data"])) p)).length
        = 0 := by
  decide

/-- C3 (amended): no remote path whose joined target starts with a protected
pattern is ever downloaded, and `protected_skipped` ends equal to the number
of ALL remote paths passing the write-protection test — including those that
exist locally, not only the remote-only ones. -/
theorem protected_paths_no_download (lp : String) (lf : FileDigestMap)
    (rf : RemoteFileMap) (sp : Option (List String)) (del : Bool) :
    (∀ p, isProtectedTarget lp (protectedPatterns sp) p = true →
        p ∉ (computePlan lp lf rf sp del).to_download)
    ∧ (computePlan lp lf rf sp del).protected_skipped
        = ((rf.map Prod.fst).filter (isProtectedTarget lp (protectedPatterns sp))).length := by
  constructor
  · intro p hprot hmem
    simp only [computePlan, downloadPass_eq, List.mem_filter] at hmem
    rw [hprot] at hmem
    simp at hmem
  · simp only [computePlan, downloadPass_eq]

/-- C3 witness at a concrete input: `b.txt` is remote-only and protected,
`a.txt` is protected by the same patterns and not downloaded. -/
theorem protected_paths_no_download_witness :
    isProtectedTarget "/data" (protectedPatterns (some ["/data"])) "a.txt" = true
    ∧ "a.txt" ∉ (computePlan "/data" [] [("b.txt", ⟨none⟩)]
        (some ["/data"]) false).to_download
    ∧ (computePlan "/data" [] [("b.txt", ⟨none⟩)]
          (some ["/data"]) false).protected_skipped
        = ((([("b.txt", RemoteMeta.mk none)] : RemoteFileMap).map Prod.fst).filter
            (isProtectedTarget "/data" (protectedPatterns (some ["/data"])))).length :=
  ⟨by decide,
   (protected_paths_no_download "/data" [] [("b.txt", ⟨none⟩)]
      (some ["/data"]) false).1 "a.txt" (by decide),
   (protected_paths_no_download "/data" [] [("b.txt", ⟨none⟩)]
      (some ["/data"]) false).2⟩

/-- C4 counterexample: a dry run does make a backend call — `sync` invokes
`list_remote_files` (line 301 of `base.py`) before the `dry_run` branch, so
its result depends on the backend even with `dry_run=true`: two backends
that differ only in their remote listing give different dry-run results. -/
theorem dry_run_backend_call_counterexample :
    syncModel emptyRemoteBackend true "/data" [] 4 false true none none none
      ≠ syncModel oneFileRemoteBackend true "/data" [] 4 false true none none none := by
  decide

/-- C4 (amended): a dry run never invokes the mutating primitives
`upload_file` / `download_file` / `delete_file` — its result depends only on
the backend's `list_remote_files` — and the returned `SyncResult` copies the
plan's list lengths with `success = true`, `failed = 0`, no errors, and
`deleted` counted only when `delete_orphaned` is set. -/
theorem dry_run_frame (b1 b2 : Backend) (lp : String) (lf : FileDigestMap)
    (mw1 mw2 : Nat) (del : Bool) (sp : Option (List String))
    (ip1 ep1 ip2 ep2 : Option String)
    (hlist : b1.list_remote_files = b2.list_remote_files) :
    syncModel b1 true lp lf mw1 del true sp ip1 ep1
      = syncModel b2 true lp lf mw2 del true sp ip2 ep2
    ∧ syncModel b1 true lp lf mw1 del true sp ip1 ep1
      = Except.ok
          { success := true,
            uploaded := (computePlan lp lf b1.list_remote_files sp del).to_upload.length,
            downloaded := (computePlan lp lf b1.list_remote_files sp del).to_download.length,
            deleted :=
              if del then (computePlan lp lf b1.list_remote_files sp del).to_delete.length
              else 0,
            failed := 0,
            unchanged := (computePlan lp lf b1.list_remote_files sp del).unchanged,
            errors := [],
            protected_skipped :=
              (computePlan lp lf b1.list_remote_files sp del).protected_skipped,
            cached := 0 } := by
  constructor
  · simp [syncModel, hlist]
  · simp [syncModel]

/-- C4 witness: the dry-run frame condition and counters at a concrete
input (one new local file, empty remote, two different worker counts). -/
theorem dry_run_frame_witness :
    emptyRemoteBackend.list_remote_files = emptyRemoteBackend.list_remote_files
    ∧ syncModel emptyRemoteBackend true "/data" [("a.txt", "d1")] 4 false true none none none
        = syncModel emptyRemoteBackend true "/data" [("a.txt", "d1")] 8 false true none none none
    ∧ syncModel emptyRemoteBackend true "/data" [("a.txt", "d1")] 4 false true none none none
        = Except.ok
            { success := true, uploaded := 1, downloaded := 0, deleted := 0, failed := 0,
              unchanged := 0, errors := [], protected_skipped := 0, cached := 0 } :=
  ⟨rfl,
   (dry_run_frame emptyRemoteBackend emptyRemoteBackend "/data" [("a.txt", "d1")]
      4 8 false none none none none none rfl).1,
   (dry_run_frame emptyRemoteBackend emptyRemoteBackend "/data" [("a.txt", "d1")]
      4 8 false none none none none none rfl).2⟩

/-- C6: with `sync_paths = ["docs"]` and `delete_orphaned = true`, the
remote-only file `images/x.png` is never in `to_delete` while
`docs/old.txt` always is; with `delete_orphaned = false` no remote path is
deleted in any mode (empty `to_delete`, `deleted` counter zero). -/
theorem deletion_scoping (lp : String) (lf : FileDigestMap) (rf : RemoteFileMap)
    (h1 : List.lookup "images/x.png" lf = none)
    (h2 : List.lookup "docs/old.txt" lf = none)
    (h3 : "docs/old.txt" ∈ rf.map Prod.fst)
    (h4 : "images/x.png" ∈ rf.map Prod.fst) :
    "images/x.png" ∉ (computePlan lp lf rf (some ["docs"]) true).to_delete
    ∧ "docs/old.txt" ∈ (computePlan lp lf rf (some ["docs"]) true).to_delete
    ∧ (computePlan lp lf rf (some ["docs"]) false).to_delete = []
    ∧ (∀ (b : Backend) (mw : Nat) (dr : Bool) (ip ep : Option String),
        b.list_remote_files = rf →
        (syncModel b true lp lf mw false dr (some ["docs"]) ip ep).map SyncResult.deleted
          = Except.ok 0) := by
  refine ⟨?_, ?_, ?_, ?_⟩
  · intro hmem
    simp only [computePlan, if_pos, deletePass_eq, List.mem_filter] at hmem
    have hscope : (!listTruthy (some ["docs"])
        || scopeAny (some ["docs"]) "images/x.png") = false := by decide
    have := hmem.2
    unfold deleteEligible at this
    rw [hscope, Bool.and_false] at this
    exact Bool.false_ne_true this
  · have hel : deleteEligible lf (some ["docs"]) "docs/old.txt" = true := by
      unfold deleteEligible
      rw [h2]
      decide
    simp only [computePlan, if_pos, deletePass_eq, List.mem_filter]
    exact ⟨h3, hel⟩
  · simp [computePlan]
  · intro b mw dr ip ep hb
    simp only [syncModel, hb, Bool.not_true]
    cases dr with
    | true => simp [Except.map]
    | false =>
      simp [Except.map, runUploads_eq, runDownloads_eq, runDeletes_eq, computePlan]

/-- C6 witness at a concrete input: empty local tree, both files remote. -/
theorem deletion_scoping_witness :
    List.lookup "images/x.png" ([] : FileDigestMap) = none
    ∧ List.lookup "docs/old.txt" ([] : FileDigestMap) = none
    ∧ "docs/old.txt"
        ∈ ([("images/x.png", RemoteMeta.mk none),
            ("docs/old.txt", RemoteMeta.mk none)] : RemoteFileMap).map Prod.fst
    ∧ "images/x.png"
        ∈ ([("images/x.png", RemoteMeta.mk none),
            ("docs/old.txt", RemoteMeta.mk none)] : RemoteFileMap).map Prod.fst
    ∧ ("images/x.png" ∉ (computePlan "/r" []
          [("images/x.png", ⟨none⟩), ("docs/old.txt", ⟨none⟩)] (some ["docs"]) true).to_delete
        ∧ "docs/old.txt" ∈ (computePlan "/r" []
            [("images/x.png", ⟨none⟩), ("docs/old.txt", ⟨none⟩)] (some ["docs"]) true).to_delete
        ∧ (computePlan "/r" []
            [("images/x.png", ⟨none⟩), ("docs/old.txt", ⟨none⟩)] (some ["docs"]) false).to_delete
          = []
        ∧ (∀ (b : Backend) (mw : Nat) (dr : Bool) (ip ep : Option String),
            b.list_remote_files
              = [("images/x.png", ⟨none⟩), ("docs/old.txt", ⟨none⟩)] →
            (syncModel b true "/r" [] mw false dr (some ["docs"]) ip ep).map SyncResult.deleted
              = Except.ok 0)) :=
  ⟨rfl, rfl, by decide, by decide,
   deletion_scoping "/r" [] [("images/x.png", ⟨none⟩), ("docs/old.txt", ⟨none⟩)]
     rfl rfl (by decide) (by decide)⟩

/-- C1 witness: a local file whose remote record has no `Checksum` key is
uploaded; the conditional branches hold at this concrete input. -/
theorem upload_empty_checksum_classification_witness :
    ("a.txt", "x1") ∈ ([("a.txt", "x1")] : FileDigestMap)
    ∧ List.lookup "a.txt" ([("a.txt", RemoteMeta.mk none)] : RemoteFileMap)
        = some ⟨none⟩
    ∧ ((RemoteMeta.mk none).checksum = none ∨ (RemoteMeta.mk none).checksum = some "")
    ∧ ((¬((RemoteMeta.mk none).checksum = some "" ∧ "x1" = "")) →
        "a.txt" ∈ (computePlan "/data" [("a.txt", "x1")] [("a.txt", ⟨none⟩)]
          none false).to_upload)
    ∧ ((([("a.txt", "x1")] : FileDigestMap).map Prod.fst).Nodup →
        (RemoteMeta.mk none).checksum = some "" → "x1" = "" →
        "a.txt" ∉ (computePlan "/data" [("a.txt", "x1")] [("a.txt", ⟨none⟩)]
          none false).to_upload) :=
  ⟨by decide, by decide, Or.inl rfl,
   (upload_empty_checksum_classification "/data" [("a.txt", "x1")] [("a.txt", ⟨none⟩)]
      none false "a.txt" "x1" ⟨none⟩ (by decide) (by decide) (Or.inl rfl)).1,
   (upload_empty_checksum_classification "/data" [("a.txt", "x1")] [("a.txt", ⟨none⟩)]
      none false "a.txt" "x1" ⟨none⟩ (by decide) (by decide) (Or.inl rfl)).2⟩

/-- C2 witness: the partition at a concrete input — two local files (one
unchanged, one modified) and one remote-only file, `delete_orphaned`
enabled. -/
theorem plan_partition_witness :
    ((([("a.txt", "d1"), ("b.txt", "d2")] : FileDigestMap).map Prod.fst).Nodup)
    ∧ (((computePlan "/root" [("a.txt", "d1"), ("b.txt", "d2")]
          [("a.txt", ⟨some "d1"⟩), ("c.txt", ⟨some "z"⟩)] none true).to_upload.length
        + (computePlan "/root" [("a.txt", "d1"), ("b.txt", "d2")]
            [("a.txt", ⟨some "d1"⟩), ("c.txt", ⟨some "z"⟩)] none true).unchanged
        = ([("a.txt", "d1"), ("b.txt", "d2")] : FileDigestMap).length)
      ∧ (∀ pc ∈ ([("a.txt", "d1"), ("b.txt", "d2")] : FileDigestMap),
          pc.1 ∈ (computePlan "/root" [("a.txt", "d1"), ("b.txt", "d2")]
              [("a.txt", ⟨some "d1"⟩), ("c.txt", ⟨some "z"⟩)] none true).to_upload
            ↔ uploadNeeded [("a.txt", ⟨some "d1"⟩), ("c.txt", ⟨some "z"⟩)] pc.1 pc.2 = true)
      ∧ (∀ p ∈ ([("a.txt", ⟨some "d1"⟩), ("c.txt", ⟨some "z"⟩)] :
            RemoteFileMap).map Prod.fst,
          (List.lookup p ([("a.txt", "d1"), ("b.txt", "d2")] : FileDigestMap)).isNone
              = true →
          (p ∈ (computePlan "/root" [("a.txt", "d1"), ("b.txt", "d2")]
                [("a.txt", ⟨some "d1"⟩), ("c.txt", ⟨some "z"⟩)] none true).to_download
              ∧ isProtectedTarget "/root" (protectedPatterns none) p = false
              ∧ isScopeExcluded none p = false)
          ∨ (p ∉ (computePlan "/root" [("a.txt", "d1"), ("b.txt", "d2")]
                [("a.txt", ⟨some "d1"⟩), ("c.txt", ⟨some "z"⟩)] none true).to_download
              ∧ isProtectedTarget "/root" (protectedPatterns none) p = true)
          ∨ (p ∉ (computePlan "/root" [("a.txt", "d1"), ("b.txt", "d2")]
                [("a.txt", ⟨some "d1"⟩), ("c.txt", ⟨some "z"⟩)] none true).to_download
              ∧ isProtectedTarget "/root" (protectedPatterns none) p = false
              ∧ isScopeExcluded none p = true))
      ∧ ((computePlan "/root" [("a.txt", "d1"), ("b.txt", "d2")]
            [("a.txt", ⟨some "d1"⟩), ("c.txt", ⟨some "z"⟩)] none true).protected_skipped
          = ((([("a.txt", ⟨some "d1"⟩), ("c.txt", ⟨some "z"⟩)] :
                RemoteFileMap).map Prod.fst).filter
              (isProtectedTarget "/root" (protectedPatterns none))).length)
      ∧ (∀ p, p ∈ (computePlan "/root" [("a.txt", "d1"), ("b.txt", "d2")]
            [("a.txt", ⟨some "d1"⟩), ("c.txt", ⟨some "z"⟩)] none true).to_upload →
          p ∉ (computePlan "/root" [("a.txt", "d1"), ("b.txt", "d2")]
            [("a.txt", ⟨some "d1"⟩), ("c.txt", ⟨some "z"⟩)] none true).to_delete)) :=
  ⟨by decide,
   plan_partition "/root" [("a.txt", "d1"), ("b.txt", "d2")]
     [("a.txt", ⟨some "d1"⟩), ("c.txt", ⟨some "z"⟩)] none true (by decide)⟩

/-- C5: per-item error handling.  For every action list: every item is
processed (successes plus failures account for the whole list, so one
item's exception neither stops the loop nor escapes `sync`), and the errors
list extends by exactly the per-item messages, an exception contributing
`"Error {verb}ing {path}: {message}"`.  In particular, when `upload_file`
raises for one of three new local files the live result is `uploaded = 2`,
`failed = 1`, one error string, `success = false`. -/
theorem per_item_error_handling :
    (∀ (b : Backend) (lp : String) (items : List String) (r : SyncResult),
        ((runUploads b lp items r).uploaded + (runUploads b lp items r).failed
            = r.uploaded + r.failed + items.length)
        ∧ (runUploads b lp items r).errors
            = r.errors ++ items.filterMap (uploadErrMsg b lp)
        ∧ ((runDownloads b lp items r).downloaded + (runDownloads b lp items r).failed
            = r.downloaded + r.failed + items.length)
        ∧ (runDownloads b lp items r).errors
            = r.errors ++ items.filterMap (downloadErrMsg b lp)
        ∧ ((runDeletes b items r).deleted + (runDeletes b items r).failed
            = r.deleted + r.failed + items.length)
        ∧ (runDeletes b items r).errors = r.errors ++ items.filterMap (deleteErrMsg b))
    ∧ (∀ (lp p1 p2 p3 d1 d2 d3 m : String) (b : Backend),
        b.list_remote_files = [] →
        b.upload_file (osPathJoin lp p1) p1 = .ok true →
        b.upload_file (osPathJoin lp p2) p2 = .exn m →
        b.upload_file (osPathJoin lp p3) p3 = .ok true →
        syncModel b true lp [(p1, d1), (p2, d2), (p3, d3)] 4 false false none none none
          = Except.ok
              { success := false, uploaded := 2, downloaded := 0, deleted := 0,
                failed := 1, unchanged := 0,
                errors := ["Error uploading " ++ p2 ++ ": " ++ m],
                protected_skipped := 0, cached := 0 }) := by
  constructor
  · intro b lp items r
    have hu := runUploads_eq b lp items r
    have hd := runDownloads_eq b lp items r
    have hx := runDeletes_eq b items r
    have hsplit : ∀ (p : String → Bool),
        items.countP p + items.countP (fun rp => !p rp) = items.length := by
      intro p
      rw [List.countP_eq_length_filter, List.countP_eq_length_filter]
      exact filter_length_split p items
    refine ⟨?_, ?_, ?_, ?_, ?_, ?_⟩
    · rw [hu]; dsimp only; have := hsplit (uploadOk b lp); omega
    · rw [hu]
    · rw [hd]; dsimp only; have := hsplit (downloadOk b lp); omega
    · rw [hd]
    · rw [hx]; dsimp only; have := hsplit (deleteOk b); omega
    · rw [hx]
  · intro lp p1 p2 p3 d1 d2 d3 m b hb h1 h2 h3
    simp only [syncModel, hb, Bool.not_true]
    simp [computePlan, uploadPass, downloadPass, runUploads, runDownloads, runDeletes,
          List.lookup, h1, h2, h3]

/-- C5 witness: the three-file scenario at a concrete backend. -/
theorem per_item_error_handling_witness :
    failingUploadBackend.list_remote_files = []
    ∧ failingUploadBackend.upload_file (osPathJoin "/data" "a.txt") "a.txt" = .ok true
    ∧ failingUploadBackend.upload_file (osPathJoin "/data" "b.txt") "b.txt" = .exn "boom"
    ∧ failingUploadBackend.upload_file (osPathJoin "/data" "c.txt") "c.txt" = .ok true
    ∧ syncModel failingUploadBackend true "/data"
        [("a.txt", "d1"), ("b.txt", "d2"), ("c.txt", "d3")] 4 false false none none none
        = Except.ok
            { success := false, uploaded := 2, downloaded := 0, deleted := 0,
              failed := 1, unchanged := 0,
              errors := ["Error uploading " ++ "b.txt" ++ ": " ++ "boom"],
              protected_skipped := 0, cached := 0 } :=
  ⟨rfl, by decide, by decide, by decide,
   per_item_error_handling.2 "/data" "a.txt" "b.txt" "c.txt" "d1" "d2" "d3" "boom"
     failingUploadBackend rfl (by decide) (by decide) (by decide)⟩

/-- C7 counterexample: `BunnySync.delete_file` without a `bunny_client`
issues an HTTP DELETE; the Bunny storage API answers 404 for an object that
is already absent, and 404 is not in the accepted set `{200, 204}`, so the
call returns `False` — deletion is not idempotent on this backend. -/
theorem delete_idempotency_counterexample :
    bunnyDeleteFile { bunny_client := none, http := .status 404 } = false := by
  decide

/-- C7 (amended): `B2Sync.delete_file` returns true on success and when the
object is already absent (`FileNotPresent` from the lookup, or a `B2Error`
with status 404); `BunnySync.delete_file`'s direct API path returns true
only for response status 200 or 204 and false for every other status —
including the 404 an already-absent object produces — so idempotent
deletion holds for B2 but not for Bunny. -/
theorem delete_file_absent_semantics :
    b2DeleteFile
        { authorized := true, connect_ok := true,
          get_info := .fileNotPresent, delete_version := none } = true
    ∧ (∀ (msg : String) (st : Nat), st = 404 →
        b2DeleteFile
          { authorized := true, connect_ok := true,
            get_info := .raises (.b2 msg st), delete_version := none } = true)
    ∧ (∀ v, b2DeleteFile
        { authorized := true, connect_ok := true,
          get_info := .info v, delete_version := none } = true)
    ∧ bunnyDirectDelete (.status 200) = true
    ∧ bunnyDirectDelete (.status 204) = true
    ∧ (∀ env : BunnyDeleteEnv, env.bunny_client = none →
        bunnyDeleteFile env = bunnyDirectDelete env.http)
    ∧ (∀ code : Nat, code ≠ 200 → code ≠ 204 →
        bunnyDirectDelete (.status code) = false) := by
  refine ⟨by decide, ?_, ?_, by decide, by decide, ?_, ?_⟩
  · intro msg st hst
    subst hst
    simp [b2DeleteFile, b2ExcResult]
  · intro v
    simp [b2DeleteFile]
  · intro env henv
    simp [bunnyDeleteFile, henv]
  · intro code h200 h204
    simp [bunnyDirectDelete, h200, h204]

/-- C7 witness: the absent-object cases evaluated at status 404. -/
theorem delete_file_absent_semantics_witness :
    (404 : Nat) = 404
    ∧ (404 : Nat) ≠ 200
    ∧ (404 : Nat) ≠ 204
    ∧ b2DeleteFile
        { authorized := true, connect_ok := true,
          get_info := .raises (.b2 "File not present" 404), delete_version := none } = true
    ∧ bunnyDirectDelete (.status 404) = false :=
  ⟨rfl, by decide, by decide,
   delete_file_absent_semantics.2.1 "File not present" 404 rfl,
   delete_file_absent_semantics.2.2.2.2.2.2 404 (by decide) (by decide)⟩

/-- C8: `include_pattern` / `exclude_pattern` are accepted by `sync` but
never read — the returned result is identical for every pattern value, and
at the failing input a local file `image1.png` with
`exclude_pattern=".*\.png$"` is still classified and counted as an upload
(the repository's own integration test `test_sync_with_filters` expects
such files to be filtered out). -/
theorem patterns_unused :
    (∀ (b : Backend) (is_dir : Bool) (lp : String) (lf : FileDigestMap) (mw : Nat)
        (del dr : Bool) (sp : Option (List String)) (ip ep : Option String),
        syncModel b is_dir lp lf mw del dr sp ip ep
          = syncModel b is_dir lp lf mw del dr sp none none)
    ∧ syncModel emptyRemoteBackend true "/data" [("image1.png", "d1")] 4 false true none
        none (some ".*\\.png$")
        = Except.ok
            { success := true, uploaded := 1, downloaded := 0, deleted := 0,
              failed := 0, unchanged := 0, errors := [],
              protected_skipped := 0, cached := 0 } :=
  ⟨fun _ _ _ _ _ _ _ _ _ _ => rfl, by decide⟩

/-- C10: for a `local_path` that is not a directory, `sync` raises
`NotADirectoryError` with the exact message of line 279 before consulting
the scan result or any backend primitive (the result is the same for every
backend and every scan content), and no `SyncResult` is returned. -/
theorem not_a_directory_raises (b : Backend) (lp : String) (lf : FileDigestMap)
    (mw : Nat) (del dr : Bool) (sp : Option (List String)) (ip ep : Option String) :
    syncModel b false lp lf mw del dr sp ip ep
      = Except.error ⟨"NotADirectoryError", "Local path does not exist: " ++ lp⟩ :=
  rfl

end Buckia
